import Mathlib

/-!
Verification development for the DJI video telemetry fixer
(`inject_dji_metadata.py`).  The Python source is shallowly embedded:
pure string processing becomes Lean functions on `List Char` / `String`,
the per-item worker becomes a function returning an `Except` value (an
`Except.error` models a Python exception escaping the function) together
with a list of externally visible actions, and the filesystem / external
tools are passed in as explicit parameters.  Floating point numbers are
modelled by `ℚ`: every numeral handled by the claims is exactly
representable and far from any rounding tie, so binary-double rounding
never changes the digits the theorems mention.
-/

set_option maxRecDepth 10000

namespace DJI

/-! ## Character classes (Python `re` semantics, ASCII) -/

/-- `\d` of Python `re` (ASCII digits, as used by the script's patterns). -/
def isPyDigit (c : Char) : Bool := c.isDigit

/-- `\s` of Python `re` on ASCII text: space, tab, newline, carriage
return, vertical tab, form feed. -/
def isPySpace (c : Char) : Bool :=
  c == ' ' || c == '\t' || c == '\n' || c == '\r' || c == '\x0b' || c == '\x0c'

/-! ## Tiny deterministic matchers for the script's regular expressions

Each `re.search` in `parse_srt_data` is embedded as a scanner that tries
the pattern at every position from the left (`searchFirst`) and a
position-local matcher (`try...`).  For the specific patterns used by the
script, greedy matching without backtracking coincides with Python's
backtracking semantics: every greedy sub-pattern (`\s*`, `\d*`, `\d+`,
`[^\]]+`) is followed by a character it can never match, so shrinking a
greedy match can never turn a failure into a success, and when the first
branch of the alternation `[-+]?\d*\.\d+|\d+` matches at a position but
the following `\]` does not, the second branch followed by `\]` cannot
match there either (the character after its digits is a dot or the
position starts with a sign). -/

/-- Match a literal sequence of characters, returning the rest. -/
def matchLit : List Char → List Char → Option (List Char)
  | [], l => some l
  | _ :: _, [] => none
  | p :: ps, c :: cs => if p == c then matchLit ps cs else none

/-- Greedy `\s*`. -/
def skipSpaces (l : List Char) : List Char := l.dropWhile isPySpace

/-- One character, exactly. -/
def expectChar (c : Char) : List Char → Option (List Char)
  | x :: xs => if x == c then some xs else none
  | [] => none

/-- Optional sign `[-+]?`, returning the consumed characters and the rest. -/
def parseSign : List Char → (List Char × List Char)
  | c :: cs => if c == '-' || c == '+' then ([c], cs) else ([], c :: cs)
  | [] => ([], [])

/-- Greedy `\d*\.\d+` (capture, rest). -/
def parseFracNum (l : List Char) : Option (List Char × List Char) :=
  let d1 := l.takeWhile isPyDigit
  match l.dropWhile isPyDigit with
  | '.' :: r2 =>
    let d2 := r2.takeWhile isPyDigit
    if d2.isEmpty then none
    else some (d1 ++ '.' :: d2, r2.dropWhile isPyDigit)
  | _ => none

/-- The number group `([-+]?\d*\.\d+|\d+)` of the script's GPS/altitude
regexes (capture, rest).  The first alternative carries the optional
sign; the second accepts only unsigned digit runs. -/
def parseNum (l : List Char) : Option (List Char × List Char) :=
  let (sgn, rest) := parseSign l
  match parseFracNum rest with
  | some (g, r) => some (sgn ++ g, r)
  | none =>
    let d := l.takeWhile isPyDigit
    if d.isEmpty then none else some (d, l.dropWhile isPyDigit)

/-- Try a position-local matcher at every position, leftmost match first
(the semantics of `re.search`). -/
def searchFirst (f : List Char → Option α) : List Char → Option α
  | [] => none
  | c :: cs =>
    match f (c :: cs) with
    | some r => some r
    | none => searchFirst f cs

/-- `\[KEY\s*:\s*([-+]?\d*\.\d+|\d+)\]` at the current position
(the `latitude` / `longitude` regexes of lines 38-39). -/
def tryKeyNum (key : List Char) (l : List Char) : Option (List Char) :=
  match l with
  | '[' :: r1 =>
    match matchLit key r1 with
    | some r2 =>
      match skipSpaces r2 with
      | ':' :: r4 =>
        match parseNum (skipSpaces r4) with
        | some (g, ']' :: _) => some g
        | _ => none
      | _ => none
    | none => none
  | _ => none

/-- `abs_alt:\s*([-+]?\d*\.\d+|\d+)` at the current position (line 40). -/
def tryAbsAlt (l : List Char) : Option (List Char) :=
  match matchLit ("abs_alt:".toList) l with
  | some r1 =>
    match parseNum (skipSpaces r1) with
    | some (g, _) => some g
    | none => none
  | none => none

/-- `\[KEY\s*:\s*(\d+)\]` at the current position (the `iso` / `fnum`
regexes of lines 51 and 53). -/
def tryKeyInt (key : List Char) (l : List Char) : Option (List Char) :=
  match l with
  | '[' :: r1 =>
    match matchLit key r1 with
    | some r2 =>
      match skipSpaces r2 with
      | ':' :: r4 =>
        let r5 := skipSpaces r4
        let d := r5.takeWhile isPyDigit
        match r5.dropWhile isPyDigit with
        | ']' :: _ => if d.isEmpty then none else some d
        | _ => none
      | _ => none
    | none => none
  | _ => none

/-- `\[shutter\s*:\s*([^\]]+)\]` at the current position (line 52). -/
def tryShutter (l : List Char) : Option (List Char) :=
  match l with
  | '[' :: r1 =>
    match matchLit ("shutter".toList) r1 with
    | some r2 =>
      match skipSpaces r2 with
      | ':' :: r4 =>
        let r5 := skipSpaces r4
        let g := r5.takeWhile (fun c => c != ']')
        match r5.dropWhile (fun c => c != ']') with
        | ']' :: _ => if g.isEmpty then none else some g
        | _ => none
      | _ => none
    | none => none
  | _ => none

/-- Exactly `n` digits (capture, rest). -/
def parseNDigits : Nat → List Char → Option (List Char × List Char)
  | 0, l => some ([], l)
  | _ + 1, [] => none
  | n + 1, c :: cs =>
    if isPyDigit c then (parseNDigits n cs).map (fun p => (c :: p.1, p.2)) else none

/-- `(\d{4}-\d{2}-\d{2} \d{2}:\d{2}:\d{2})` at the current position
(the timestamp regex of line 33). -/
def tryDateTime (l : List Char) : Option (List Char) := do
  let (y, r1) ← parseNDigits 4 l
  let r2 ← expectChar '-' r1
  let (mo, r3) ← parseNDigits 2 r2
  let r4 ← expectChar '-' r3
  let (d, r5) ← parseNDigits 2 r4
  let r6 ← expectChar ' ' r5
  let (h, r7) ← parseNDigits 2 r6
  let r8 ← expectChar ':' r7
  let (mi, r9) ← parseNDigits 2 r8
  let r10 ← expectChar ':' r9
  let (s, _) ← parseNDigits 2 r10
  pure (y ++ '-' :: mo ++ '-' :: d ++ ' ' :: h ++ ':' :: mi ++ ':' :: s)

/-! ## Numeric conversion (`float(...)` on regex-shaped decimals) -/

/-- Value of a digit run. -/
def digitsToNat (ds : List Char) : Nat :=
  ds.foldl (fun n c => n * 10 + (c.toNat - '0'.toNat)) 0

/-- Exact rational value of a capture of `[-+]?\d*\.\d+|\d+`
(Python's `float(...)` on such strings, with binary rounding abstracted
away: all claim-relevant digits are unaffected). -/
def ratOfNumChars (l : List Char) : ℚ :=
  let (neg, l1) : Bool × List Char :=
    match l with
    | '-' :: r => (true, r)
    | '+' :: r => (false, r)
    | r => (false, r)
  let ip := l1.takeWhile isPyDigit
  let v : ℚ :=
    match l1.dropWhile isPyDigit with
    | '.' :: fr =>
      mkRat (Int.ofNat (digitsToNat ip * 10 ^ fr.length + digitsToNat fr)) (10 ^ fr.length)
    | _ => mkRat (Int.ofNat (digitsToNat ip)) 1
  if neg then -v else v

/-! ## Shutter normalization (lines 58-64) -/

/-- Does `pat` occur as a contiguous sublist (Python's `pat in s`)? -/
def containsList (pat : List Char) : List Char → Bool
  | [] => pat.isEmpty
  | c :: cs => pat.isPrefixOf (c :: cs) || containsList pat cs

/-- Python's `s.replace(".0", "")`: remove every non-overlapping
occurrence of `.0`, scanning left to right. -/
def removeDotZero : List Char → List Char
  | [] => []
  | [c] => [c]
  | c :: d :: rest =>
    if c == '.' && d == '0' then removeDotZero rest
    else c :: removeDotZero (d :: rest)

/-- Lines 61-64: if the raw shutter value contains `.0`, apply
`replace('.0', '')`, otherwise keep it verbatim. -/
def shutterNormalize (raw : String) : String :=
  if containsList (".0".toList) raw.toList then String.mk (removeDotZero raw.toList)
  else raw

/-! ## The telemetry record and `parse_srt_data` (lines 19-80) -/

/-- The dictionary built by `parse_srt_data`, with every key optional
(`data.get` style access).  `latitude`/`longitude` are set only jointly
(lines 42-44). -/
structure SrtData where
  datetime : Option String
  latitude : Option ℚ
  longitude : Option ℚ
  altitude : Option ℚ
  iso : Option String
  shutter : Option String
  fnum : Option ℚ
deriving DecidableEq

/-- The record `parse_srt_data` returns when both coordinate regexes
matched, with captures `la` and `lo`: every other field is filled from
its own, independent first-match search (lines 33-72).  The
`fnum` `float` call never raises `ValueError` because the capture is
`\d+` (lines 66-72). -/
def mkRecord (content : String) (la lo : List Char) : SrtData where
  datetime := (searchFirst tryDateTime content.toList).map String.mk
  latitude := some (ratOfNumChars la)
  longitude := some (ratOfNumChars lo)
  altitude := (searchFirst tryAbsAlt content.toList).map ratOfNumChars
  iso := (searchFirst (tryKeyInt ("iso".toList)) content.toList).map String.mk
  shutter := (searchFirst tryShutter content.toList).map
    (fun g => shutterNormalize (String.mk g))
  fnum := (searchFirst (tryKeyInt ("fnum".toList)) content.toList).map
    (fun g => mkRat (Int.ofNat (digitsToNat g)) 100)

/-- `parse_srt_data` on the file's text (the `open`/read I/O and its
`except` clause are outside the embedding; given the text, no step of
the function can raise).  Lines 42-44 store the coordinates only when
both regexes matched, and lines 78-80 return the dictionary exactly
when both are stored, else `None`. -/
def parse_srt_data (content : String) : Option SrtData :=
  match searchFirst (tryKeyNum ("latitude".toList)) content.toList,
        searchFirst (tryKeyNum ("longitude".toList)) content.toList with
  | some la, some lo => some (mkRecord content la lo)
  | _, _ => none

/-! ## `format_iso6709` (lines 83-92)

Python's `f"{v:08.5f}"` on a non-negative value: round to the given
number of decimal places, print `intpart.fracpart`, then left-pad the
whole string with `'0'` up to the given total width (the width counts
the decimal point and the fraction digits).  Rounding is modelled as
exact decimal round-half-up on `ℚ`; Python rounds the binary double
half-to-even, which agrees on every value the claims touch (none is
within 5e-9 of a tie). -/

/-- Python's `abs` on a rational (negate when the numerator is
negative). -/
def qabs (q : ℚ) : ℚ := if q.num < 0 then -q else q

/-- Round-half-up of `q * 10 ^ p` as an integer, computed directly on
the numerator and denominator:
`⌊q·10^p + 1/2⌋ = fdiv (2·num·10^p + den) (2·den)`. -/
def scaledRound (p : Nat) (q : ℚ) : ℤ :=
  Int.fdiv (q.num * Int.ofNat (10 ^ p) * 2 + Int.ofNat q.den) (2 * Int.ofNat q.den)

/-- Left-pad with `'0'` to width `w`. -/
def padLeftZeros (w : Nat) (s : List Char) : List Char :=
  List.replicate (w - s.length) '0' ++ s

/-- Decimal digits of a natural number. -/
def natChars (n : Nat) : List Char := (Nat.repr n).toList

/-- `f"{q:0{w}.{p}f}"` for `q ≥ 0` (the script only applies it to
`abs(...)` values). -/
def formatFixed (w p : Nat) (q : ℚ) : String :=
  let m := (scaledRound p q).toNat
  let ip := m / 10 ^ p
  let fp := m % 10 ^ p
  String.mk (padLeftZeros w (natChars ip ++ '.' :: padLeftZeros p (natChars fp)))

/-- Lines 83-92: sign (`'+'` for zero and positive, i.e. a non-negative
numerator), latitude as `08.5f`, longitude as `09.5f`, altitude as
`08.3f`, then `'/'`. -/
def format_iso6709 (lat lon alt : ℚ) : String :=
  (if 0 ≤ lat.num then "+" else "-") ++ formatFixed 8 5 (qabs lat) ++
  (if 0 ≤ lon.num then "+" else "-") ++ formatFixed 9 5 (qabs lon) ++
  (if 0 ≤ alt.num then "+" else "-") ++ formatFixed 8 3 (qabs alt) ++ "/"

/-! ## Path helpers (POSIX-style `os.path` on `'/'`-separated paths)

The script runs `os.path.dirname` / `basename` / `splitext` / `join` on
the matched SRT path.  The embedding uses the `'/'` separator; the
Windows `'\\'` variant is isomorphic for every claim. -/

/-- `os.path.basename`: the part after the last `'/'`. -/
def basename (p : String) : String :=
  String.mk ((p.toList.reverse.takeWhile (fun c => c != '/')).reverse)

/-- `os.path.dirname`: the part before the last `'/'` (empty when there
is no separator). -/
def dirname (p : String) : String :=
  match p.toList.reverse.dropWhile (fun c => c != '/') with
  | '/' :: d => String.mk d.reverse
  | _ => ""

/-- The stem of `os.path.splitext` on a base name: drop the suffix from
the last `'.'`, unless every character before that dot is itself a dot
(Python keeps leading dots with the stem). -/
def splitextStem (name : List Char) : List Char :=
  match name.reverse.dropWhile (fun c => c != '.') with
  | [] => name
  | _ :: pre => if pre.all (fun c => c == '.') then name else pre.reverse

/-- `os.path.join` for the two-argument uses in the script. -/
def joinPath (d n : String) : String := if d = "" then n else d ++ "/" ++ n

/-! ## `recycle_source` (lines 316-349) and externally visible actions -/

/-- Externally visible effects of one worker invocation. -/
inductive Action where
  /-- `recycle_source` was called (line 290 or 312). -/
  | recycleCall
  /-- The exiftool subprocess ran; `ok` is its exit status (line 187).
  A failure is caught at lines 189-190 and only printed. -/
  | runExiftool (ok : Bool)
  /-- The ffmpeg remux subprocess ran; `ok` is its exit status. -/
  | runEmbed (ok : Bool)
  /-- The send-to-recycle-bin invocation was issued for `path`
  (lines 339-344). -/
  | trash (path : String)
deriving DecidableEq

/-- Lines 322-327: candidate original recordings, derived from the SRT
path, in the order the loop tries them. -/
def potential_srcs (matched_srt : String) : List String :=
  let src_dir := dirname matched_srt
  let src_base := String.mk (splitextStem (basename matched_srt).toList)
  [joinPath src_dir (src_base ++ ".MP4"),
   joinPath src_dir (src_base ++ ".mp4"),
   joinPath src_dir (src_base ++ ".MOV"),
   joinPath src_dir (src_base ++ ".mov")]

/-- Lines 316-349.  `fsExists` models `os.path.exists` and `normpath`
models `os.path.normpath`.  The loop acts on the first existing
candidate and returns: if its normalized path equals the export's
(line 332) it returns with no action; otherwise it issues the
send-to-recycle-bin invocation and returns — a failure of that
invocation is caught at lines 347-349, so the function never raises
and its only possible action is the single `trash`. -/
def recycle_source (fsExists : String → Bool) (normpath : String → String)
    (matched_srt export_path : String) : List Action :=
  match (potential_srcs matched_srt).find? fsExists with
  | some src_vid =>
    if normpath src_vid = normpath export_path then []
    else [Action.trash src_vid]
  | none => []

/-! ## `inject_metadata` (lines 94-190) and `process_single_video`
(lines 279-314)

External tools and the filesystem are parameters.  A Python exception
escaping a function is modelled as `Except.error`; `process_single_video`
has no `try`/`except` of its own, so an error produced inside it is its
return value. -/

/-- The run-scoped flags and external-tool responses one worker
observes. -/
structure Env where
  /-- The `--force` flag. -/
  force : Bool
  /-- The `--delete-source` flag. -/
  deleteSource : Bool
  /-- `check_ffmpeg()` (line 373). -/
  hasFfmpeg : Bool
  /-- `check_if_processed(export_path)` (line 287); any query failure is
  caught inside that function and yields `false`. -/
  alreadyProcessed : Bool
  /-- Exit status of the ffmpeg remux subprocess, when run. -/
  embedOk : Bool
  /-- Exit status of the exiftool subprocess, when run. -/
  exiftoolOk : Bool
deriving DecidableEq

/-- Abstract rendering of a rational in the success string; Python's
`float` repr is immaterial to every claim. -/
def ratRepr (q : ℚ) : String := toString q.num ++ "/" ++ toString q.den

/-- Lines 94-190.  Line 103 evaluates `metadata['datetime']`, which
raises `KeyError` when the record has no timestamp; nothing before that
line can raise.  The exiftool invocation's failure is caught at lines
189-190 and only printed, so it never propagates; the command runs and
the function returns normally whenever the timestamp is present. -/
def inject_metadata (md : SrtData) (exiftoolOk : Bool) : Except String (List Action) :=
  match md.datetime with
  | none => Except.error "KeyError: datetime"
  | some _ => Except.ok [Action.runExiftool exiftoolOk]

/-- Lines 279-314, for one work item.  Returns the outcome string the
worker hands back to `executor.map` (or the exception escaping it) and
the externally visible actions in order.  `srtContent` is the text of
the matched SRT file. -/
def process_single_video (env : Env) (fsExists : String → Bool)
    (normpath : String → String) (export_path matched_srt srtContent : String) :
    Except String String × List Action :=
  if !env.force && env.alreadyProcessed then
    -- Lines 287-291: short-circuit, optionally still recycling.
    if env.deleteSource then
      (Except.ok "already_processed",
        Action.recycleCall :: recycle_source fsExists normpath matched_srt export_path)
    else (Except.ok "already_processed", [])
  else
    -- Lines 293-296: subtitle embedding; `srt_ok` stays `True` when
    -- ffmpeg is unavailable.  `embed_subtitle` catches its own errors.
    let embedActs := if env.hasFfmpeg then [Action.runEmbed env.embedOk] else []
    let srt_ok := if env.hasFfmpeg then env.embedOk else true
    -- Lines 299-308: reparse and inject.
    match parse_srt_data srtContent with
    | some md =>
      match inject_metadata md env.exiftoolOk with
      | Except.error e => (Except.error e, embedActs)
      | Except.ok injActs =>
        let final := "success|" ++ basename export_path ++ "|"
          ++ (md.datetime.getD "?") ++ "|"
          ++ ratRepr (md.latitude.getD 0) ++ "," ++ ratRepr (md.longitude.getD 0)
        -- Lines 310-312: recycle only when meta_ok and srt_ok.
        if env.deleteSource && srt_ok then
          (Except.ok final,
            embedActs ++ injActs ++
              Action.recycleCall :: recycle_source fsExists normpath matched_srt export_path)
        else (Except.ok final, embedActs ++ injActs)
    | none => (Except.ok "error", embedActs)

/-! ## `embed_subtitle` (lines 200-243)

State is reduced to the contents of the export file and the existence of
the temporary sibling file.  `toolResult` is `some t` when the ffmpeg
remux succeeds producing temp contents `t`, `none` when it exits
non-zero; `moveRaises` models `shutil.move` failing (the replacement is
treated as atomic: it either installs the temp contents or leaves the
original). -/

/-- Lines 200-243, returning `(return value, export-file contents after,
temp file present after)`.  Both `except` branches remove the temp file
and return `False`; the success path moves the temp over the
original and returns `True`. -/
def embed_subtitle (origVideo : String) (toolResult : Option String)
    (moveRaises : Bool) : Bool × String × Option String :=
  match toolResult with
  | some t => if moveRaises then (false, origVideo, none) else (true, t, none)
  | none => (false, origVideo, none)

/-! ## FileMatcher (lines 386-419) -/

/-- Python's `key in base` (substring containment). -/
def strContains (pat s : String) : Bool := containsList pat.toList s.toList

/-- Line 413: the index keys that are substrings of the export's base
name, in the index's iteration order (`source_map` is an insertion-
ordered association list with unique keys, like a Python dict). -/
def matchKeys (source_map : List (String × String)) (base : String) : List String :=
  (source_map.map Prod.fst).filter (fun k => strContains k base)

/-- Stable insertion step for sorting by length, longest first: a later
element is placed after every earlier element of length `≥` its own. -/
def insertLenDesc (x : String) : List String → List String
  | [] => [x]
  | y :: ys => if y.length ≤ x.length then x :: y :: ys else y :: insertLenDesc x ys

/-- Line 415's `sorted(matches, key=len, reverse=True)`: a stable sort
by length, longest first (Python's sort is stable, and with
`reverse=True` ties keep their original order). -/
def sortLenDesc : List String → List String
  | [] => []
  | x :: xs => insertLenDesc x (sortLenDesc xs)

/-- Line 415's `sorted(...)[0]` (`none` when there is no match and the
`if matches:` guard fails). -/
def bestMatchKey (source_map : List (String × String)) (base : String) : Option String :=
  (sortLenDesc (matchKeys source_map base)).head?

/-- Lines 410-416: exact key lookup first, otherwise the fuzzy
longest-substring match. -/
def matched_srt_for (source_map : List (String × String)) (base : String) : Option String :=
  match source_map.lookup base with
  | some p => some p
  | none => (bestMatchKey source_map base).bind (fun k => source_map.lookup k)

/-! ## Outcome tally (lines 439-456) -/

/-- Line 440's `res.startswith("success")`. -/
def isSucc (res : String) : Bool := "success".isPrefixOf res

/-- Line 443's `res == "already_processed"` branch (only reached when
the first branch failed). -/
def isAlready (res : String) : Bool := !isSucc res && (res == "already_processed")

/-- The `else` branch of the tally. -/
def isErr (res : String) : Bool := !isSucc res && !(res == "already_processed")

/-- One step of the tally loop: `(processed, already, skipped)`. -/
def tallyStep (acc : Nat × Nat × Nat) (res : String) : Nat × Nat × Nat :=
  if isSucc res then (acc.1 + 1, acc.2.1, acc.2.2)
  else if res == "already_processed" then (acc.1, acc.2.1 + 1, acc.2.2)
  else (acc.1, acc.2.1, acc.2.2 + 1)

/-- Lines 439-446: fold the outcome list into
`(processed_count, already_processed_count, skipped_count)`. -/
def tally (results : List String) : Nat × Nat × Nat :=
  results.foldl tallyStep (0, 0, 0)

/-- Line 456: the summary's `Errors/No Match` figure,
`total - processed - already`. -/
def reportedErrors (results : List String) : Nat :=
  results.length - (tally results).1 - (tally results).2.1

/-! ## Definitions stated from the spec, for comparison with the code -/

/-- Removal of only the first occurrence of `.0`. -/
def removeFirstDotZero : List Char → List Char
  | [] => []
  | [c] => [c]
  | c :: d :: rest =>
    if c == '.' && d == '0' then rest
    else c :: removeFirstDotZero (d :: rest)

/-- The spec's shutter normalization, written from its words ("when the
raw value contains a literal `.0` substring, strip it once"), to be
compared with the code's `shutterNormalize`. -/
def stripDotZeroOnce (raw : String) : String :=
  if containsList (".0".toList) raw.toList then String.mk (removeFirstDotZero raw.toList)
  else raw

/-! # Helper lemmas -/

/-- A list with no `.0` occurrence is unchanged by `replace(".0", "")`. -/
theorem removeDotZero_of_not_contains :
    ∀ l : List Char, containsList (".0".toList) l = false → removeDotZero l = l := by
  intro l
  induction l using removeDotZero.induct with
  | case1 => intro; rfl
  | case2 c => intro; rfl
  | case3 c d rest htest ih =>
    intro h
    exfalso
    have : (".0".toList).isPrefixOf (c :: d :: rest) = true := by
      simp only [Bool.and_eq_true, beq_iff_eq] at htest
      simp [List.isPrefixOf, htest.1, htest.2]
    rw [containsList, this] at h
    simp at h
  | case4 c d rest htest ih =>
    intro h
    rw [containsList, Bool.or_eq_false_iff] at h
    rw [removeDotZero, if_neg (by simp [htest]), ih h.2]

/-- The first element of maximal length, the specification of the head
of a stable length-descending sort. -/
def firstMaxLen : List String → Option String
  | [] => none
  | x :: xs =>
    match firstMaxLen xs with
    | none => some x
    | some m => if x.length < m.length then some m else some x

theorem firstMaxLen_eq_none : ∀ l : List String, firstMaxLen l = none → l = [] := by
  intro l h
  cases l with
  | nil => rfl
  | cons x xs =>
    rw [firstMaxLen] at h
    cases hm : firstMaxLen xs <;> rw [hm] at h <;> simp at h
    exact absurd h (by split <;> simp)

theorem head_sortLenDesc (l : List String) : (sortLenDesc l).head? = firstMaxLen l := by
  induction l with
  | nil => rfl
  | cons x xs ih =>
    cases hs : sortLenDesc xs with
    | nil =>
      have h0 : firstMaxLen xs = none := by rw [← ih, hs]; rfl
      simp only [sortLenDesc, firstMaxLen, hs, h0, insertLenDesc, List.head?]
    | cons y ys =>
      have h0 : firstMaxLen xs = some y := by rw [← ih, hs]; rfl
      simp only [sortLenDesc, firstMaxLen, hs, h0, insertLenDesc]
      by_cases hxy : y.length ≤ x.length
      · rw [if_pos hxy, if_neg (show ¬x.length < y.length by omega)]
        rfl
      · rw [if_neg hxy, if_pos (show x.length < y.length by omega)]
        rfl

theorem firstMaxLen_spec :
    ∀ (l : List String) (k : String), firstMaxLen l = some k →
      k ∈ l ∧ (∀ j ∈ l, j.length ≤ k.length) ∧
      ∃ l1 l2, l = l1 ++ k :: l2 ∧ ∀ j ∈ l1, j.length < k.length := by
  intro l
  induction l with
  | nil => intro k h; simp [firstMaxLen] at h
  | cons x xs ih =>
    intro k h
    cases hm : firstMaxLen xs with
    | none =>
      simp only [firstMaxLen, hm] at h
      have hx : k = x := by simpa using h.symm
      subst hx
      have hxs : xs = [] := firstMaxLen_eq_none xs hm
      subst hxs
      exact ⟨by simp, by simp, [], [], rfl, by simp⟩
    | some m =>
      simp only [firstMaxLen, hm] at h
      by_cases hlt : x.length < m.length
      · rw [if_pos hlt] at h
        have hk : k = m := by simpa using h.symm
        subst hk
        obtain ⟨h1, h2, l1, l2, hsplit, hstrict⟩ := ih k hm
        refine ⟨List.mem_cons_of_mem x h1, ?_, x :: l1, l2, by rw [hsplit]; rfl, ?_⟩
        · intro j hj
          rcases List.mem_cons.mp hj with rfl | hj
          · exact Nat.le_of_lt hlt
          · exact h2 j hj
        · intro j hj
          rcases List.mem_cons.mp hj with rfl | hj
          · exact hlt
          · exact hstrict j hj
      · rw [if_neg hlt] at h
        have hk : k = x := by simpa using h.symm
        subst hk
        obtain ⟨_, h2, _⟩ := ih m hm
        refine ⟨List.mem_cons_self _ _, ?_, [], xs, rfl, by simp⟩
        intro j hj
        rcases List.mem_cons.mp hj with rfl | hj
        · exact Nat.le_refl _
        · exact Nat.le_trans (h2 j hj) (Nat.le_of_not_lt hlt)

theorem tally_foldl (rs : List String) :
    ∀ a b c : Nat, rs.foldl tallyStep (a, b, c)
      = (a + rs.countP isSucc, b + rs.countP isAlready, c + rs.countP isErr) := by
  induction rs with
  | nil => intro a b c; simp [List.countP_nil]
  | cons r rs ih =>
    intro a b c
    rw [List.foldl_cons]
    cases h1 : isSucc r
    · cases h2 : (r == "already_processed")
      · rw [show tallyStep (a, b, c) r = (a, b, c + 1) by
          simp [tallyStep, h1, h2], ih]
        simp only [List.countP_cons, isAlready, isErr, h1, h2, Prod.mk.injEq]
        refine ⟨by simp, by simp, by simp; omega⟩
      · rw [show tallyStep (a, b, c) r = (a, b + 1, c) by
          simp [tallyStep, h1, h2], ih]
        simp only [List.countP_cons, isAlready, isErr, h1, h2, Prod.mk.injEq]
        refine ⟨by simp, by simp; omega, by simp⟩
    · rw [show tallyStep (a, b, c) r = (a + 1, b, c) by simp [tallyStep, h1], ih]
      simp only [List.countP_cons, isAlready, isErr, h1, Prod.mk.injEq]
      refine ⟨by simp; omega, by simp, by simp⟩

theorem countP_outcomes (rs : List String) :
    rs.countP isSucc + rs.countP isAlready + rs.countP isErr = rs.length := by
  induction rs with
  | nil => simp
  | cons r rs ih =>
    simp only [List.countP_cons, List.length_cons]
    cases h1 : isSucc r <;> cases h2 : (r == "already_processed") <;>
      simp [isAlready, isErr, h1, h2] <;> omega

theorem tally_eq_counts (rs : List String) :
    tally rs = (rs.countP isSucc, rs.countP isAlready, rs.countP isErr) := by
  rw [tally, tally_foldl]
  simp

/-! # Claims -/

/-- C1: if the first existing candidate original-recording path is
identical to the export path after normalization, `recycle_source`
issues no deletion/trash invocation and returns without error (it is a
total function: every exception in the source is caught inside it). -/
theorem C1_recycle_skips_when_source_equals_export
    (fsExists : String → Bool) (normpath : String → String)
    (matched_srt export_path src_vid : String)
    (hfind : (potential_srcs matched_srt).find? fsExists = some src_vid)
    (heq : normpath src_vid = normpath export_path) :
    recycle_source fsExists normpath matched_srt export_path = [] := by
  simp only [recycle_source, hfind]
  rw [if_pos heq]

/-- C1 witness: a source recording that is itself the export file is
found first and left untouched. -/
theorem C1_witness :
    (potential_srcs "src/DJI_0001.SRT").find? (fun p => p == "src/DJI_0001.MP4")
      = some "src/DJI_0001.MP4" ∧
    recycle_source (fun p => p == "src/DJI_0001.MP4") (fun p => p)
      "src/DJI_0001.SRT" "src/DJI_0001.MP4" = [] :=
  ⟨by decide,
   C1_recycle_skips_when_source_equals_export _ _ _ _ "src/DJI_0001.MP4" (by decide) rfl⟩

/-- C2 counterexample: with cleanup enabled, a run in which the external
tagging tool fails (`runExiftool false`) still invokes the recycling
step and issues the trash invocation, because the failure is caught
inside `inject_metadata` while `meta_ok` is set unconditionally. -/
theorem C2_failed_exiftool_still_recycles :
    Action.runExiftool false ∈ (process_single_video ⟨false, true, true, false, true, false⟩
      (fun p => p == "src/DJI_0001.MP4") (fun p => p) "exp/out.mp4" "src/DJI_0001.SRT"
      "2025-08-09 18:53:47 [latitude: 35.0][longitude: 139.0]").snd ∧
    Action.recycleCall ∈ (process_single_video ⟨false, true, true, false, true, false⟩
      (fun p => p == "src/DJI_0001.MP4") (fun p => p) "exp/out.mp4" "src/DJI_0001.SRT"
      "2025-08-09 18:53:47 [latitude: 35.0][longitude: 139.0]").snd ∧
    Action.trash "src/DJI_0001.MP4" ∈ (process_single_video ⟨false, true, true, false, true, false⟩
      (fun p => p == "src/DJI_0001.MP4") (fun p => p) "exp/out.mp4" "src/DJI_0001.SRT"
      "2025-08-09 18:53:47 [latitude: 35.0][longitude: 139.0]").snd := by
  decide

/-- C2 (amended): for an item not short-circuited as already processed,
the recycling step is invoked exactly when cleanup-mode is on, a
telemetry record was extracted whose timestamp is present (so the
injection step completed rather than crashing), and subtitle embedding
succeeded whenever it was attempted; the external tagging tool's exit
status plays no role. -/
theorem C2_recycle_gating (env : Env) (fsExists : String → Bool)
    (normpath : String → String) (export_path matched_srt srtContent : String)
    (hns : (!env.force && env.alreadyProcessed) = false) :
    (Action.recycleCall ∈
        (process_single_video env fsExists normpath export_path matched_srt srtContent).snd
      ↔ env.deleteSource = true ∧
        (∃ md, parse_srt_data srtContent = some md ∧ md.datetime.isSome = true) ∧
        (env.hasFfmpeg = true → env.embedOk = true)) := by
  unfold process_single_video
  rw [if_neg (show ¬((!env.force && env.alreadyProcessed) = true) by simp [hns])]
  cases hp : parse_srt_data srtContent with
  | none =>
    simp only [hp]
    constructor
    · intro hmem
      exfalso
      cases hf : env.hasFfmpeg <;> simp [hf] at hmem
    · rintro ⟨-, ⟨md, hmd, -⟩, -⟩
      exact absurd hmd (by simp)
  | some md =>
    cases hd : md.datetime with
    | none =>
      simp only [hp, inject_metadata, hd]
      constructor
      · intro hmem
        exfalso
        cases hf : env.hasFfmpeg <;> simp [hf] at hmem
      · rintro ⟨-, ⟨md', hmd', hds⟩, -⟩
        obtain rfl : md = md' := Option.some.inj hmd'
        rw [hd] at hds
        exact absurd hds (by simp)
    | some dt =>
      simp only [hp, inject_metadata, hd]
      cases hds : env.deleteSource <;> cases hf : env.hasFfmpeg <;>
        cases he : env.embedOk <;> simp [hds, hf, he, hd]

/-- C2 witness for the amended gating: with `--force` (so no
short-circuit), cleanup on, no ffmpeg, and a full record, the recycling
step is invoked. -/
theorem C2_recycle_gating_witness :
    Action.recycleCall ∈ (process_single_video ⟨true, true, false, false, true, true⟩
      (fun _ => false) (fun p => p) "exp/out.mp4" "src/a.SRT"
      "2025-08-09 18:53:47 [latitude: 35.0][longitude: 139.0]").snd :=
  (C2_recycle_gating ⟨true, true, false, false, true, true⟩ (fun _ => false) (fun p => p)
      "exp/out.mp4" "src/a.SRT" "2025-08-09 18:53:47 [latitude: 35.0][longitude: 139.0]"
      rfl).mpr
    ⟨rfl,
     ⟨mkRecord "2025-08-09 18:53:47 [latitude: 35.0][longitude: 139.0]"
        ("35.0".toList) ("139.0".toList), rfl, rfl⟩,
     fun h => nomatch h⟩

/-- C3: a telemetry text with coordinates but no timestamp parses to a
record, and processing it makes the worker return an escaped exception
(`KeyError` from `metadata['datetime']`), contradicting the claim that
every per-item failure is converted to an outcome value at the item
boundary. -/
theorem C3_keyerror_escapes_worker :
    (process_single_video ⟨false, false, false, false, true, true⟩ (fun _ => false)
        (fun p => p) "exp/out.mp4" "src/a.SRT" "[latitude: 35.0][longitude: 139.0]").fst
      = Except.error "KeyError: datetime" ∧
    parse_srt_data "[latitude: 35.0][longitude: 139.0]"
      = some (mkRecord "[latitude: 35.0][longitude: 139.0]" ("35.0".toList) ("139.0".toList)) ∧
    (mkRecord "[latitude: 35.0][longitude: 139.0]" ("35.0".toList) ("139.0".toList)).datetime
      = none :=
  ⟨rfl, rfl, rfl⟩

/-- C4: `parse_srt_data` returns `none` exactly when the latitude or
longitude pattern fails to match; when both match it returns the record
whose other fields are each filled from their own independent search,
and any returned record has both coordinates present. -/
theorem C4_null_iff_coordinate_missing :
    (∀ content : String,
      (parse_srt_data content = none ↔
        searchFirst (tryKeyNum ("latitude".toList)) content.toList = none ∨
        searchFirst (tryKeyNum ("longitude".toList)) content.toList = none)) ∧
    (∀ (content : String) (la lo : List Char),
      searchFirst (tryKeyNum ("latitude".toList)) content.toList = some la →
      searchFirst (tryKeyNum ("longitude".toList)) content.toList = some lo →
      parse_srt_data content = some (mkRecord content la lo)) ∧
    (∀ (content : String) (md : SrtData),
      parse_srt_data content = some md →
      md.latitude.isSome = true ∧ md.longitude.isSome = true) := by
  refine ⟨?_, ?_, ?_⟩
  · intro content
    unfold parse_srt_data
    cases h1 : searchFirst (tryKeyNum ("latitude".toList)) content.toList <;>
      cases h2 : searchFirst (tryKeyNum ("longitude".toList)) content.toList <;> simp
  · intro content la lo h1 h2
    unfold parse_srt_data
    rw [h1, h2]
  · intro content md h
    unfold parse_srt_data at h
    cases h1 : searchFirst (tryKeyNum ("latitude".toList)) content.toList <;>
      cases h2 : searchFirst (tryKeyNum ("longitude".toList)) content.toList <;>
        rw [h1, h2] at h <;> simp at h
    rw [← h]
    exact ⟨rfl, rfl⟩

/-- C4 witness: a text with both coordinates parses to the record built
from the two captures. -/
theorem C4_witness :
    parse_srt_data "[latitude: 35.6812][longitude: 139.7671]"
      = some (mkRecord "[latitude: 35.6812][longitude: 139.7671]"
          ("35.6812".toList) ("139.7671".toList)) :=
  C4_null_iff_coordinate_missing.2.1 "[latitude: 35.6812][longitude: 139.7671]"
    ("35.6812".toList) ("139.7671".toList) rfl rfl

/-- C5: the formatter pads the altitude to width 8 (`08.3f`), i.e. four
integer digits, so the spec's examples with three integer digits
(`+010.200/`, `+000.000/`) disagree with the code's actual output
(`+0010.200/`, `+0000.000/`); latitude and longitude agree with the
claim. -/
theorem C5_altitude_width :
    format_iso6709 (mkRat 356812 10000) (mkRat 1397671 10000) (mkRat 102 10)
      = "+35.68120+139.76710+0010.200/" ∧
    format_iso6709 (mkRat 356812 10000) (mkRat 1397671 10000) (mkRat 102 10)
      ≠ "+35.68120+139.76710+010.200/" ∧
    format_iso6709 (-1) (-2) 0 = "-01.00000-002.00000+0000.000/" ∧
    format_iso6709 (-1) (-2) 0 ≠ "-01.00000-002.00000+000.000/" := by
  refine ⟨by decide, by decide, by decide, by decide⟩

/-- C6: when the export's base name is not an index key, the fuzzy rule
picks a key that is a substring match of maximal length and is the
first of that length in the index's iteration order, and the work item
gets that key's SRT path; on the spec's example it picks
`dji_0001_edit`, not `dji_0001`. -/
theorem C6_longest_substring_match :
    (∀ (source_map : List (String × String)) (base k : String),
      bestMatchKey source_map base = some k →
      k ∈ matchKeys source_map base ∧
      (∀ j ∈ matchKeys source_map base, j.length ≤ k.length) ∧
      (∃ l1 l2, matchKeys source_map base = l1 ++ k :: l2 ∧
        ∀ j ∈ l1, j.length < k.length) ∧
      (source_map.lookup base = none →
        matched_srt_for source_map base = source_map.lookup k)) ∧
    bestMatchKey [("dji_0001", "src/DJI_0001.SRT"), ("dji_0001_edit", "src/DJI_0001_edit.SRT")]
      "dji_0001_edit_final" = some "dji_0001_edit" ∧
    matched_srt_for [("dji_0001", "src/DJI_0001.SRT"), ("dji_0001_edit", "src/DJI_0001_edit.SRT")]
      "dji_0001_edit_final" = some "src/DJI_0001_edit.SRT" := by
  refine ⟨?_, by decide, by decide⟩
  intro m base k h
  have h' : firstMaxLen (matchKeys m base) = some k := by
    rw [← head_sortLenDesc]
    exact h
  obtain ⟨h1, h2, h3⟩ := firstMaxLen_spec _ _ h'
  refine ⟨h1, h2, h3, ?_⟩
  intro hlk
  unfold matched_srt_for
  rw [hlk]
  show (bestMatchKey m base).bind (fun j => List.lookup j m) = List.lookup k m
  rw [h]
  rfl

/-- C6 witness: the general longest-substring property instantiated on
the spec's example. -/
theorem C6_witness :
    "dji_0001_edit" ∈ matchKeys
        [("dji_0001", "src/DJI_0001.SRT"), ("dji_0001_edit", "src/DJI_0001_edit.SRT")]
        "dji_0001_edit_final" ∧
    (∀ j ∈ matchKeys
        [("dji_0001", "src/DJI_0001.SRT"), ("dji_0001_edit", "src/DJI_0001_edit.SRT")]
        "dji_0001_edit_final", j.length ≤ ("dji_0001_edit" : String).length) ∧
    (∃ l1 l2, matchKeys
        [("dji_0001", "src/DJI_0001.SRT"), ("dji_0001_edit", "src/DJI_0001_edit.SRT")]
        "dji_0001_edit_final" = l1 ++ "dji_0001_edit" :: l2 ∧
      ∀ j ∈ l1, j.length < ("dji_0001_edit" : String).length) ∧
    ((([("dji_0001", "src/DJI_0001.SRT"), ("dji_0001_edit", "src/DJI_0001_edit.SRT")] :
          List (String × String)).lookup "dji_0001_edit_final") = none →
      matched_srt_for
          [("dji_0001", "src/DJI_0001.SRT"), ("dji_0001_edit", "src/DJI_0001_edit.SRT")]
          "dji_0001_edit_final"
        = ([("dji_0001", "src/DJI_0001.SRT"), ("dji_0001_edit", "src/DJI_0001_edit.SRT")] :
            List (String × String)).lookup "dji_0001_edit") :=
  C6_longest_substring_match.1
    [("dji_0001", "src/DJI_0001.SRT"), ("dji_0001_edit", "src/DJI_0001_edit.SRT")]
    "dji_0001_edit_final" "dji_0001_edit" (by decide)

/-- C7: `embed_subtitle` returns `false` with the temp file removed and
the export file unchanged whenever the remux tool fails or the
replacement step fails, and on tool success (with the replacement
succeeding) it returns `true` with the export file replaced by the temp
output and the temp file gone. -/
theorem C7_temp_file_protocol :
    ∀ (orig : String) (toolResult : Option String) (moveRaises : Bool),
      ((toolResult = none ∨ moveRaises = true) →
        embed_subtitle orig toolResult moveRaises = (false, orig, none)) ∧
      (∀ t, toolResult = some t → moveRaises = false →
        embed_subtitle orig toolResult moveRaises = (true, t, none)) := by
  intro orig toolResult moveRaises
  constructor
  · rintro (rfl | rfl)
    · rfl
    · cases toolResult <;> rfl
  · rintro t rfl rfl
    rfl

/-- C7 witness: both branches of the protocol on concrete contents. -/
theorem C7_witness :
    embed_subtitle "origbytes" none false = (false, "origbytes", none) ∧
    embed_subtitle "origbytes" (some "newbytes") false = (true, "newbytes", none) :=
  ⟨(C7_temp_file_protocol "origbytes" none false).1 (Or.inl rfl),
   (C7_temp_file_protocol "origbytes" (some "newbytes") false).2 "newbytes" rfl rfl⟩

/-- C8 counterexample: the code's normalization removes every `.0`
occurrence (`"1.0/2.0"` becomes `"1/2"`), while stripping the substring
exactly once as the claim states would yield `"1/2.0"`; the value
`1.0/2.0` is reachable since the shutter capture is `[^\]]+`. -/
theorem C8_strip_once_counterexample :
    shutterNormalize "1.0/2.0" = "1/2" ∧
    stripDotZeroOnce "1.0/2.0" = "1/2.0" ∧
    shutterNormalize "1.0/2.0" ≠ stripDotZeroOnce "1.0/2.0" ∧
    searchFirst tryShutter "[shutter : 1.0/2.0]".toList = some ("1.0/2.0".toList) := by
  decide

/-- C8 (amended): the shutter normalization removes every
non-overlapping `.0` occurrence left to right (Python's
`replace('.0', '')`), keeping values without `.0` verbatim; on the
intended inputs with a single occurrence it agrees with the claim
(`1/160.0` becomes `1/160`). -/
theorem C8_strip_all_occurrences :
    (∀ raw : String, shutterNormalize raw = String.mk (removeDotZero raw.toList)) ∧
    shutterNormalize "1/160.0" = "1/160" ∧
    shutterNormalize "1.0/2.0" = "1/2" := by
  refine ⟨?_, by decide, by decide⟩
  intro raw
  unfold shutterNormalize
  cases hc : containsList (".0".toList) raw.toList
  · rw [if_neg (by simp [hc]), removeDotZero_of_not_contains _ hc]
    cases raw
    rfl
  · simp

/-- C9: the tally assigns every outcome string to exactly one of the
three counters, so `processed + already + skipped` equals the number of
work items, the reported error figure (`total - processed - already`)
equals the skipped counter, and the tally is invariant under any
completion order (permutation) of the outcomes. -/
theorem C9_outcome_partition (rs rs' : List String) (hperm : rs.Perm rs') :
    (tally rs).1 + (tally rs).2.1 + (tally rs).2.2 = rs.length ∧
    reportedErrors rs = (tally rs).2.2 ∧
    tally rs = tally rs' := by
  have h1 := tally_eq_counts rs
  have h2 := tally_eq_counts rs'
  have hsum := countP_outcomes rs
  refine ⟨?_, ?_, ?_⟩
  · rw [h1]
    simpa using hsum
  · unfold reportedErrors
    rw [h1]
    simp only
    omega
  · rw [h1, h2, hperm.countP_eq, hperm.countP_eq, hperm.countP_eq]

/-- C9 witness: the partition on a concrete multiset of outcomes and a
permutation of it. -/
theorem C9_witness :
    (tally ["success|a|d|g", "already_processed", "boom"]).1 +
      (tally ["success|a|d|g", "already_processed", "boom"]).2.1 +
      (tally ["success|a|d|g", "already_processed", "boom"]).2.2
      = (["success|a|d|g", "already_processed", "boom"] : List String).length ∧
    reportedErrors ["success|a|d|g", "already_processed", "boom"]
      = (tally ["success|a|d|g", "already_processed", "boom"]).2.2 ∧
    tally ["success|a|d|g", "already_processed", "boom"]
      = tally ["boom", "already_processed", "success|a|d|g"] :=
  C9_outcome_partition ["success|a|d|g", "already_processed", "boom"]
    ["boom", "already_processed", "success|a|d|g"] (by decide)

/-- C10: a latitude given as a signed integer (`[latitude: -35]`) is not
matched by the coordinate pattern (signed values need a decimal
fraction; plain integers must be unsigned), so the whole record is
discarded and the parser returns `none` although a latitude token is
textually present; with a fraction (`-35.5`) or unsigned (`35`) the
pattern matches. -/
theorem C10_signed_integer_coordinate_rejected :
    parse_srt_data "[latitude: -35] [longitude: 139.7671]" = none ∧
    containsList ("[latitude:".toList) "[latitude: -35] [longitude: 139.7671]".toList = true ∧
    searchFirst (tryKeyNum ("latitude".toList))
      "[latitude: -35] [longitude: 139.7671]".toList = none ∧
    searchFirst (tryKeyNum ("latitude".toList)) "[latitude: -35.5]".toList
      = some ("-35.5".toList) ∧
    searchFirst (tryKeyNum ("latitude".toList)) "[latitude: 35]".toList
      = some ("35".toList) := by
  decide

end DJI
